import Mathlib

/-
Verification of the datepicker core (src/src/DatepickerContext.ts).

Shallow embedding notes:
- JS numbers that only ever hold integers (years, months, days, ms) are
  modelled as Int.
- A JS Date object is modelled as a canonical civil triple
  (year, month in [0,11], day in [1,daysInMonth]) plus the milliseconds
  elapsed since local midnight.  The ECMAScript setters setFullYear,
  setMonth and setDate all route through MakeDay(year, month, date),
  which first normalises the month by floor division into the year and
  then resolves an out-of-range day by walking across month boundaries;
  normYMD below implements exactly that normalisation.  The time of day
  is untouched by these setters.
- Comparing two Date objects in JS compares their epoch milliseconds;
  on canonical representations that numeric order coincides with the
  lexicographic order on (year, month, day, msOfDay), which is how
  JSDate.ltb is stated.
- The JS remainder operator on integers agrees with Int.emod on
  equality with zero, which is the only way the source uses it.
-/

/-- Mirror of isLeapYear in DatepickerContext.ts:
(year % 4 === 0 && year % 100 !== 0) || year % 400 === 0. -/
def isLeapYear (year : Int) : Bool :=
  (decide (year % 4 = 0) && decide (year % 100 ≠ 0)) || decide (year % 400 = 0)

/-- Mirror of daysInMonth in DatepickerContext.ts: a switch returning 31
for months 0,2,4,6,7,9,11, a leap-dependent length for month 1, and 30
for every other number (the default branch). -/
def daysInMonth (month year : Int) : Int :=
  if month = 0 ∨ month = 2 ∨ month = 4 ∨ month = 6 ∨ month = 7 ∨ month = 9 ∨ month = 11 then 31
  else if month = 1 then (if isLeapYear year then 29 else 28)
  else 30

/-- One step of ECMAScript MakeDay day normalisation, with a fuel
argument for structural recursion.  Every step moves the day value at
least 28 closer to the canonical interval [1, daysInMonth], so the fuel
supplied by normYMD (natAbs of the day plus two) is always sufficient
and the fuel-exhausted branch is unreachable. -/
def normDayGo : Nat → Int → Int → Int → Int × Int × Int
  | 0, y, m, d => (y, m, d)
  | Nat.succ n, y, m, d =>
    if d < 1 then
      normDayGo n (y + (m - 1) / 12) ((m - 1) % 12)
        (d + daysInMonth ((m - 1) % 12) (y + (m - 1) / 12))
    else if daysInMonth m y < d then
      normDayGo n (y + (m + 1) / 12) ((m + 1) % 12) (d - daysInMonth m y)
    else (y, m, d)

/-- ECMAScript MakeDay(year, month, date) returned in canonical civil
form: the month is folded into the year by floor division, then the day
is resolved across month boundaries. -/
def normYMD (y m d : Int) : Int × Int × Int :=
  normDayGo (d.natAbs + 2) (y + m / 12) (m % 12) d

/-- A JS Date object in canonical form: civil year, month in [0,11],
day of month in [1, daysInMonth month year], and the milliseconds since
local midnight.  The epoch-milliseconds order on such values is the
lexicographic order on the four fields. -/
structure JSDate where
  year : Int
  month : Int
  day : Int
  ms : Int
deriving DecidableEq

/-- Date.prototype.setFullYear(y): MakeDay(y, MonthFromTime(t), DateFromTime(t)). -/
def JSDate.setFullYear (t : JSDate) (y : Int) : JSDate :=
  let r := normYMD y t.month t.day
  ⟨r.1, r.2.1, r.2.2, t.ms⟩

/-- Date.prototype.setMonth(m): MakeDay(YearFromTime(t), m, DateFromTime(t)). -/
def JSDate.setMonth (t : JSDate) (m : Int) : JSDate :=
  let r := normYMD t.year m t.day
  ⟨r.1, r.2.1, r.2.2, t.ms⟩

/-- Date.prototype.setDate(d): MakeDay(YearFromTime(t), MonthFromTime(t), d). -/
def JSDate.setDate (t : JSDate) (d : Int) : JSDate :=
  let r := normYMD t.year t.month d
  ⟨r.1, r.2.1, r.2.2, t.ms⟩

/-- Date.prototype.getFullYear on a canonical date. -/
def JSDate.getFullYear (t : JSDate) : Int := t.year

/-- Date.prototype.getMonth on a canonical date. -/
def JSDate.getMonth (t : JSDate) : Int := t.month

/-- Strict order on canonical JS dates; agrees with comparing epoch
milliseconds, which is what the JS comparison operators on Date do. -/
def JSDate.ltb (a b : JSDate) : Bool :=
  if a.year ≠ b.year then decide (a.year < b.year)
  else if a.month ≠ b.month then decide (a.month < b.month)
  else if a.day ≠ b.day then decide (a.day < b.day)
  else decide (a.ms < b.ms)

def JSDate.gtb (a b : JSDate) : Bool := JSDate.ltb b a

/-- The constructor new Date(y, m, d): a year argument in [0,99] is
offset by 1900, then MakeDay normalises month and day; the time of day
is midnight. -/
def mkJSDate (y m d : Int) : JSDate :=
  let yr : Int := if 0 ≤ y ∧ y ≤ 99 then y + 1900 else y
  let r := normYMD yr m d
  ⟨r.1, r.2.1, r.2.2, 0⟩

/-- The three values of the view state: "date" | "month" | "year". -/
inductive ViewState where
  | date
  | month
  | year
deriving DecidableEq

/-- The DateValidator record: day and month optional, year required.
A day equal to 0 is falsy in JS, so isValid treats some 0 like an
absent day. -/
structure DateValidator where
  day : Option Int
  month : Option Int
  year : Int
deriving DecidableEq

/-- Mirror of isValid in DatepickerContext.ts.  The source mutates its
argument (writing d.month = 12 when the month is absent and d.day =
daysInMonth(d.month, d.year) when the day is absent or 0) and reads the
current wall clock through new Date(); the embedding makes both
explicit: now is the wall-clock Date the call starts from, and the
function returns the pair of the boolean result and the candidate
record as it stands after the call. -/
def isValid (view : ViewState) (minDate maxDate : Option JSDate) (now : JSDate)
    (dv : DateValidator) : Bool × DateValidator :=
  let m : Int :=
    match dv.month with
    | none => 12
    | some v => v
  let dd : Int :=
    match dv.day with
    | none => daysInMonth m dv.year
    | some v => if v = 0 then daysInMonth m dv.year else v
  let mutated : DateValidator := { day := some dd, month := some m, year := dv.year }
  let d0 : JSDate := ((now.setFullYear dv.year).setMonth m).setDate dd
  let d1 : JSDate := if view = ViewState.date then d0 else d0.setMonth (m - 1)
  match view with
  | ViewState.year =>
    (match minDate with
     | some lo =>
       if lo.getFullYear > dv.year then false
       else
         match maxDate with
         | some hi => if hi.getFullYear < dv.year then false else true
         | none => true
     | none =>
       match maxDate with
       | some hi => if hi.getFullYear < dv.year then false else true
       | none => true,
     mutated)
  | _ =>
    let d2 : JSDate := d1.setDate (dd - 1)
    (match maxDate with
     | some hi =>
       if d2.gtb hi then false
       else
         match minDate with
         | some lo => if d2.ltb lo then false else true
         | none => true
     | none =>
       match minDate with
       | some lo => if d2.ltb lo then false else true
       | none => true,
     mutated)

/-- The widget configuration: the selected date and the optional range. -/
structure DatepickerConfig where
  date : JSDate
  minDate : Option JSDate
  maxDate : Option JSDate

/-- The mutable state owned by useDatepickerCtx: the monthYear anchor,
the view, and the visibility flag. -/
structure DPState where
  month : Int
  year : Int
  view : ViewState
  visible : Bool
deriving DecidableEq

/-- The user-visible operations of the hook.  outsideClick is the
mousedown listener firing on a target outside the popup. -/
inductive Ev where
  | nextMonth
  | prevMonth
  | nextYear
  | prevYear
  | nextDecade
  | prevDecade
  | selectMonth (m : Int)
  | selectYear (y : Int)
  | selectDate (dd : Int)
  | viewMonths
  | viewYears
  | showCalendar
  | toggleCalendar
  | outsideClick

/-- One synchronous event step of the hook, returning the new state and
the list of dates passed to the onChange callback during the step.
The useEffect keyed on isVisible resets monthYear to the month and year
of the configured date exactly when the flag transitions from false to
true, so that reset is folded into the steps that flip the flag; a
showCalendar call while already visible stores an unchanged value, the
effect does not rerun, and nothing is reset.  The mousedown listener is
registered only while the popup is visible, so outsideClick on a hidden
popup is a no-op. -/
def step (cfg : DatepickerConfig) (s : DPState) : Ev → DPState × List JSDate
  | Ev.nextMonth =>
    (if s.month ≥ 11 then { s with month := 0, year := s.year + 1 }
     else { s with month := s.month + 1 }, [])
  | Ev.prevMonth =>
    (if s.month ≤ 0 then { s with month := 11, year := s.year - 1 }
     else { s with month := s.month - 1 }, [])
  | Ev.nextYear => ({ s with year := s.year + 1 }, [])
  | Ev.prevYear => ({ s with year := s.year - 1 }, [])
  | Ev.nextDecade => ({ s with year := s.year + 12 }, [])
  | Ev.prevDecade => ({ s with year := s.year - 12 }, [])
  | Ev.selectMonth m => ({ s with month := m, view := ViewState.date }, [])
  | Ev.selectYear y => ({ s with year := y, view := ViewState.month }, [])
  | Ev.selectDate dd => ({ s with visible := false }, [mkJSDate s.year s.month dd])
  | Ev.viewMonths => ({ s with view := ViewState.month }, [])
  | Ev.viewYears => ({ s with view := ViewState.year }, [])
  | Ev.showCalendar =>
    (if s.visible then s
     else { s with visible := true, month := cfg.date.getMonth, year := cfg.date.getFullYear }, [])
  | Ev.toggleCalendar =>
    (if s.visible then { s with visible := false }
     else { s with visible := true, month := cfg.date.getMonth, year := cfg.date.getFullYear }, [])
  | Ev.outsideClick =>
    (if s.visible then { s with visible := false, view := ViewState.date } else s, [])

/-- The initial hook state: monthYear from the configured date, view
"date", popup hidden. -/
def initState (cfg : DatepickerConfig) : DPState :=
  { month := cfg.date.getMonth, year := cfg.date.getFullYear
    view := ViewState.date, visible := false }

/-- Run a list of events, collecting the onChange emissions in order. -/
def runEvents (cfg : DatepickerConfig) (s : DPState) : List Ev → DPState × List JSDate
  | [] => (s, [])
  | e :: es =>
    let r1 := step cfg s e
    let r2 := runEvents cfg r1.1 es
    (r2.1, r1.2 ++ r2.2)

/-- Lexicographic comparison of two civil (year, month, day) triples,
used to state the day-granularity range checks the spec describes. -/
def tripleLeB (a b : Int × Int × Int) : Bool :=
  decide (a.1 < b.1 ∨ (a.1 = b.1 ∧ (a.2.1 < b.2.1 ∨ (a.2.1 = b.2.1 ∧ a.2.2 ≤ b.2.2))))

/-- The range check C1 claims for Date view, from the spec words: the
calendar day (year, month, day) is at least minDate and at most
maxDate, at day granularity, an absent bound imposing no constraint. -/
def specDateInclusiveCheck (minD maxD : Option JSDate) (y m dd : Int) : Bool :=
  (minD.all fun lo => tripleLeB (lo.year, lo.month, lo.day) (y, m, dd)) &&
  (maxD.all fun hi => tripleLeB (y, m, dd) (hi.year, hi.month, hi.day))

/-- The validity C2 claims for Month view, from the spec words: at
least one day of the month (year, m) lies within the configured range,
at day granularity. -/
def specMonthHasDayInRange (minD maxD : Option JSDate) (y m : Int) : Bool :=
  (List.range (daysInMonth m y).toNat).any fun i =>
    (minD.all fun lo => tripleLeB (lo.year, lo.month, lo.day) (y, m, (i : Int) + 1)) &&
    (maxD.all fun hi => tripleLeB (y, m, (i : Int) + 1) (hi.year, hi.month, hi.day))

/-- The civil day immediately before day dd of month m of year y, for
canonical inputs.  In Date view isValid compares the range against this
day rather than against the candidate day itself. -/
def prevDayTriple (y m dd : Int) : Int × Int × Int :=
  if 2 ≤ dd then (y, m, dd - 1)
  else if m = 0 then (y - 1, 11, 31)
  else (y, m - 1, daysInMonth (m - 1) y)

/-- prevDayTriple packaged as a JSDate at a given time of day. -/
def prevDayDate (y m dd ms : Int) : JSDate :=
  ⟨(prevDayTriple y m dd).1, (prevDayTriple y m dd).2.1, (prevDayTriple y m dd).2.2, ms⟩

/-- The reference day isValid actually compares against in Month view
for candidate month m of year y: for m = 0 the 30th of December of the
previous year; for the 31-day months that follow a shorter month
(m = 2, 4, 6, 9, 11, where the ECMAScript setMonth call overflows into
month m again) the 30th of month m itself; otherwise day
(daysInMonth m y - 1) of month m - 1. -/
def monthRefTriple (y m : Int) : Int × Int × Int :=
  if m = 0 then (y - 1, 11, 30)
  else if m = 2 ∨ m = 4 ∨ m = 6 ∨ m = 9 ∨ m = 11 then (y, m, 30)
  else (y, m - 1, daysInMonth m y - 1)

/-- monthRefTriple packaged as a JSDate at a given time of day. -/
def monthRefDate (y m ms : Int) : JSDate :=
  ⟨(monthRefTriple y m).1, (monthRefTriple y m).2.1, (monthRefTriple y m).2.2, ms⟩

/-- A concrete configuration used by the reachability counterexamples:
selected date 2023-06-15, no range. -/
def cfg0 : DatepickerConfig := ⟨⟨2023, 5, 15, 0⟩, none, none⟩

theorem daysInMonth_ge (month year : Int) : 28 ≤ daysInMonth month year := by
  unfold daysInMonth
  split
  · norm_num
  · split
    · split <;> norm_num
    · norm_num

theorem daysInMonth_le (month year : Int) : daysInMonth month year ≤ 31 := by
  unfold daysInMonth
  split
  · norm_num
  · split
    · split <;> norm_num
    · norm_num

/-- Sanity checks of the MakeDay normalisation against the observable
behaviour of the JS Date setters and constructor. -/
theorem normYMD_sanity :
    normYMD 2023 0 0 = (2022, 11, 31)
    ∧ normYMD 2023 1 31 = (2023, 2, 3)
    ∧ normYMD 2024 1 31 = (2024, 2, 2)
    ∧ normYMD 2023 12 5 = (2024, 0, 5)
    ∧ mkJSDate 2024 0 40 = ⟨2024, 1, 9, 0⟩
    ∧ mkJSDate 50 0 5 = ⟨1950, 0, 5, 0⟩ := by
  decide

theorem normDayGo_base (n : Nat) (y m d : Int)
    (h1 : 1 ≤ d) (h2 : d ≤ daysInMonth m y) :
    normDayGo (n + 1) y m d = (y, m, d) := by
  simp only [normDayGo]
  rw [if_neg (by omega), if_neg (by omega)]

theorem normDayGo_low (n : Nat) (y m d : Int) (h : d < 1) :
    normDayGo (n + 1) y m d =
      normDayGo n (y + (m - 1) / 12) ((m - 1) % 12)
        (d + daysInMonth ((m - 1) % 12) (y + (m - 1) / 12)) := by
  simp only [normDayGo]
  rw [if_pos h]

theorem normDayGo_high (n : Nat) (y m d : Int) (h1 : ¬ d < 1) (h2 : daysInMonth m y < d) :
    normDayGo (n + 1) y m d =
      normDayGo n (y + (m + 1) / 12) ((m + 1) % 12) (d - daysInMonth m y) := by
  simp only [normDayGo]
  rw [if_neg h1, if_pos h2]

theorem normYMD_id (y m d : Int) (hm1 : 0 ≤ m) (hm2 : m ≤ 11)
    (hd1 : 1 ≤ d) (hd2 : d ≤ daysInMonth m y) :
    normYMD y m d = (y, m, d) := by
  unfold normYMD
  rw [show m / 12 = 0 by omega, show m % 12 = m by omega, add_zero]
  rw [show d.natAbs + 2 = (d.natAbs + 1) + 1 by omega]
  rw [normDayGo_base _ _ _ _ hd1 hd2]

theorem setFullYear_setMonth_setDate (now : JSDate) (y m dd : Int)
    (hn1 : 0 ≤ now.month) (hn2 : now.month ≤ 11) (hn3 : 1 ≤ now.day) (hn4 : now.day ≤ 28)
    (hm1 : 0 ≤ m) (hm2 : m ≤ 11) (hd1 : 1 ≤ dd) (hd2 : dd ≤ daysInMonth m y) :
    ((now.setFullYear y).setMonth m).setDate dd = ⟨y, m, dd, now.ms⟩ := by
  have b1 := daysInMonth_ge now.month y
  have b2 := daysInMonth_ge m y
  have e1 : now.setFullYear y = ⟨y, now.month, now.day, now.ms⟩ := by
    unfold JSDate.setFullYear
    rw [normYMD_id y now.month now.day hn1 hn2 hn3 (by omega)]
  rw [e1]
  have e2 : (JSDate.mk y now.month now.day now.ms).setMonth m = ⟨y, m, now.day, now.ms⟩ := by
    unfold JSDate.setMonth
    rw [normYMD_id y m now.day hm1 hm2 hn3 (by omega)]
  rw [e2]
  unfold JSDate.setDate
  rw [normYMD_id y m dd hm1 hm2 hd1 hd2]

/-- C9: daysInMonth(1, y) is 29 exactly in leap years, where leap years
are the years divisible by 4 and not by 100, or divisible by 400; every
other listed month has a fixed length independent of the year: 31 for
months 0, 2, 4, 6, 7, 9, 11 and 30 for months 3, 5, 8, 10. -/
theorem daysInMonth_leapYear_spec (y : Int) :
    daysInMonth 1 y = (if isLeapYear y then 29 else 28)
    ∧ (isLeapYear y = true ↔ (((4:Int) ∣ y ∧ ¬ (100:Int) ∣ y) ∨ (400:Int) ∣ y))
    ∧ daysInMonth 0 y = 31 ∧ daysInMonth 2 y = 31 ∧ daysInMonth 4 y = 31
    ∧ daysInMonth 6 y = 31 ∧ daysInMonth 7 y = 31 ∧ daysInMonth 9 y = 31
    ∧ daysInMonth 11 y = 31
    ∧ daysInMonth 3 y = 30 ∧ daysInMonth 5 y = 30 ∧ daysInMonth 8 y = 30
    ∧ daysInMonth 10 y = 30 := by
  refine ⟨by norm_num [daysInMonth], ?_, by norm_num [daysInMonth], by norm_num [daysInMonth],
    by norm_num [daysInMonth], by norm_num [daysInMonth], by norm_num [daysInMonth],
    by norm_num [daysInMonth], by norm_num [daysInMonth], by norm_num [daysInMonth],
    by norm_num [daysInMonth], by norm_num [daysInMonth], by norm_num [daysInMonth]⟩
  simp only [isLeapYear, Bool.or_eq_true, Bool.and_eq_true, decide_eq_true_eq]
  omega

/-- C10: with neither minDate nor maxDate configured, isValid returns
true for every candidate in every view mode. -/
theorem isValid_no_range_true (view : ViewState) (now : JSDate) (dv : DateValidator) :
    (isValid view none none now dv).1 = true := by
  cases view <;> rfl

/-- C3: in Year view, isValid is true exactly when the candidate year
is at least the minDate year (if configured) and at most the maxDate
year (if configured); in particular with range 2023-01-01 to 2023-12-31
the year 2022 is invalid and 2023 is valid. -/
theorem isValid_year_view_spec (minD maxD : Option JSDate) (now : JSDate) (dv : DateValidator) :
    ((isValid ViewState.year minD maxD now dv).1 =
      ((minD.all fun lo => decide (lo.year ≤ dv.year)) &&
       (maxD.all fun hi => decide (dv.year ≤ hi.year))))
    ∧ ((isValid ViewState.year (some ⟨2023, 0, 1, 0⟩) (some ⟨2023, 11, 31, 0⟩) now
        ⟨none, none, 2022⟩).1 = false)
    ∧ ((isValid ViewState.year (some ⟨2023, 0, 1, 0⟩) (some ⟨2023, 11, 31, 0⟩) now
        ⟨none, none, 2023⟩).1 = true) := by
  have hgen : ∀ (a b : Option JSDate) (c : DateValidator),
      (isValid ViewState.year a b now c).1 =
      ((a.all fun lo => decide (lo.year ≤ c.year)) &&
       (b.all fun hi => decide (c.year ≤ hi.year))) := by
    intro a b c
    cases a with
    | none =>
      cases b with
      | none => rfl
      | some hi =>
        simp only [isValid, JSDate.getFullYear, Option.all, Bool.true_and]
        split_ifs with h1
        · have h2 : ¬ (c.year ≤ hi.year) := by omega
          simp [h2]
        · have h2 : c.year ≤ hi.year := by omega
          simp [h2]
    | some lo =>
      cases b with
      | none =>
        simp only [isValid, JSDate.getFullYear, Option.all, Bool.and_true]
        split_ifs with h1
        · have h2 : ¬ (lo.year ≤ c.year) := by omega
          simp [h2]
        · have h2 : lo.year ≤ c.year := by omega
          simp [h2]
      | some hi =>
        simp only [isValid, JSDate.getFullYear, Option.all]
        split_ifs with h1 h2
        · have h3 : ¬ (lo.year ≤ c.year) := by omega
          simp [h3]
        · have h3 : lo.year ≤ c.year := by omega
          have h4 : ¬ (c.year ≤ hi.year) := by omega
          simp [h3, h4]
        · have h3 : lo.year ≤ c.year := by omega
          have h4 : c.year ≤ hi.year := by omega
          simp [h3, h4]
  exact ⟨hgen minD maxD dv, by rw [hgen]; rfl, by rw [hgen]; rfl⟩

/-- C4 counterexample: isValid is not a pure predicate.  First, it
mutates an argument whose month and day are absent (they come back
filled in with month 12 and day 30).  Second, with the same candidate,
view and range its result differs between a call made on 2020-01-31 and
a call made on 2020-01-15, because the setter chain started from the
current wall-clock date overflows an intermediate short month. -/
theorem isValid_impure_counterexample :
    ((isValid ViewState.date none none ⟨2020, 0, 15, 0⟩ ⟨none, none, 2023⟩).2 ≠
      ⟨none, none, 2023⟩)
    ∧ ((isValid ViewState.date none (some ⟨2023, 3, 30, 0⟩) ⟨2020, 0, 31, 0⟩
        ⟨some 15, some 3, 2023⟩).1 ≠
       (isValid ViewState.date none (some ⟨2023, 3, 30, 0⟩) ⟨2020, 0, 15, 0⟩
        ⟨some 15, some 3, 2023⟩).1) := by
  decide

/-- C4 amended: isValid leaves the candidate unchanged when its month
is present and its day is present and nonzero; when both are absent it
writes month 12 and day 30 into the candidate; and in Year view the
boolean result is independent of the wall clock (in Date and Month view
it is not, as the counterexample shows). -/
theorem isValid_mutation_spec (view : ViewState) (minD maxD : Option JSDate)
    (now : JSDate) (y m dd : Int) (h : dd ≠ 0) :
    ((isValid view minD maxD now ⟨some dd, some m, y⟩).2 = ⟨some dd, some m, y⟩)
    ∧ ((isValid view minD maxD now ⟨none, none, y⟩).2 = ⟨some 30, some 12, y⟩)
    ∧ (∀ now2 : JSDate, (isValid ViewState.year minD maxD now ⟨none, none, y⟩).1 =
        (isValid ViewState.year minD maxD now2 ⟨none, none, y⟩).1) := by
  refine ⟨?_, ?_, fun now2 => rfl⟩
  · cases view <;> simp [isValid, h]
  · cases view <;> rfl

/-- C4 witness: the no-mutation part of isValid_mutation_spec at a
concrete candidate with day 15 and month 3. -/
theorem isValid_mutation_spec_witness :
    (isValid ViewState.date none none ⟨2020, 0, 15, 0⟩ ⟨some 15, some 3, 2023⟩).2 =
      ⟨some 15, some 3, 2023⟩ :=
  (isValid_mutation_spec ViewState.date none none ⟨2020, 0, 15, 0⟩ 2023 3 15
    (by norm_num)).1

/-- C5 counterexample: from the initial state, opening the popup,
switching to Month view and then closing it with the toggle button
reaches a state in which the popup is hidden but the view is Month, so
not every transition to hidden resets the view to Date. -/
theorem closed_popup_view_counterexample :
    ((runEvents cfg0 (initState cfg0)
        [Ev.showCalendar, Ev.viewMonths, Ev.toggleCalendar]).1.visible = false)
    ∧ ((runEvents cfg0 (initState cfg0)
        [Ev.showCalendar, Ev.viewMonths, Ev.toggleCalendar]).1.view = ViewState.month) := by
  decide

/-- C5 amended: only the outside-click dismissal resets the view to
Date when it hides the popup; toggling the calendar while open and the
close performed by selectDate leave the view mode unchanged. -/
theorem hide_view_reset_spec (cfg : DatepickerConfig) (s : DPState) (dd : Int) :
    ((step cfg { s with visible := true } Ev.outsideClick).1 =
      { s with visible := false, view := ViewState.date })
    ∧ ((step cfg s Ev.toggleCalendar).1.view = s.view)
    ∧ ((step cfg s (Ev.selectDate dd)).1.view = s.view)
    ∧ ((step cfg s (Ev.selectDate dd)).1.visible = false) := by
  refine ⟨rfl, ?_, rfl, rfl⟩
  cases hv : s.visible <;> simp [step, hv]

/-- C8 counterexample: close the popup from Month view with the toggle
button, then reopen it; the popup is visible again but the view mode is
still Month, not Date, so reopening does not reset the view. -/
theorem reopen_view_counterexample :
    ((runEvents cfg0 (initState cfg0)
        [Ev.showCalendar, Ev.viewMonths, Ev.toggleCalendar, Ev.showCalendar]).1.visible = true)
    ∧ ((runEvents cfg0 (initState cfg0)
        [Ev.showCalendar, Ev.viewMonths, Ev.toggleCalendar, Ev.showCalendar]).1.view =
        ViewState.month) := by
  decide

/-- C8 amended: whenever Visibility transitions from false to true,
through showCalendar or toggleCalendar, the ViewAnchor is reset to the
month and year of the configured selected date, but the view mode is
left exactly as it was; it is not reset to Date. -/
theorem open_resets_anchor_spec (cfg : DatepickerConfig) (s : DPState) :
    ((step cfg { s with visible := false } Ev.showCalendar).1 =
      { month := cfg.date.month, year := cfg.date.year, view := s.view, visible := true })
    ∧ ((step cfg { s with visible := false } Ev.toggleCalendar).1 =
      { month := cfg.date.month, year := cfg.date.year, view := s.view, visible := true }) :=
  ⟨rfl, rfl⟩

/-- C6: every operation keeps the ViewAnchor month inside [0,11]
(selectMonth under the precondition that its argument is in [0,11], and
a configured date whose month is canonical), and the month boundaries
wrap: nextMonth from month 11 gives month 0 of the next year, prevMonth
from month 0 gives month 11 of the previous year. -/
theorem viewAnchor_month_invariant (cfg : DatepickerConfig) (s : DPState) (e : Ev)
    (hc1 : 0 ≤ cfg.date.month) (hc2 : cfg.date.month ≤ 11)
    (hs1 : 0 ≤ s.month) (hs2 : s.month ≤ 11)
    (hsel : ∀ m, e = Ev.selectMonth m → 0 ≤ m ∧ m ≤ 11) :
    (0 ≤ (step cfg s e).1.month ∧ (step cfg s e).1.month ≤ 11)
    ∧ (∀ (Y : Int) (v : ViewState) (vis : Bool),
        (step cfg ⟨11, Y, v, vis⟩ Ev.nextMonth).1 = ⟨0, Y + 1, v, vis⟩)
    ∧ (∀ (Y : Int) (v : ViewState) (vis : Bool),
        (step cfg ⟨0, Y, v, vis⟩ Ev.prevMonth).1 = ⟨11, Y - 1, v, vis⟩) := by
  refine ⟨?_, fun Y v vis => rfl, fun Y v vis => rfl⟩
  cases e with
  | nextMonth => simp only [step]; split <;> simp <;> omega
  | prevMonth => simp only [step]; split <;> simp <;> omega
  | selectMonth m => exact hsel m rfl
  | showCalendar =>
    simp only [step]; split
    · exact ⟨hs1, hs2⟩
    · exact ⟨hc1, hc2⟩
  | toggleCalendar =>
    simp only [step]; split
    · exact ⟨hs1, hs2⟩
    · exact ⟨hc1, hc2⟩
  | outsideClick =>
    simp only [step]; split
    · exact ⟨hs1, hs2⟩
    · exact ⟨hs1, hs2⟩
  | _ => exact ⟨hs1, hs2⟩

/-- C6 witness: the invariant applied from month 5 with a nextMonth
step under the concrete configuration. -/
theorem viewAnchor_month_invariant_witness :
    0 ≤ (step cfg0 ⟨5, 2023, ViewState.date, false⟩ Ev.nextMonth).1.month ∧
    (step cfg0 ⟨5, 2023, ViewState.date, false⟩ Ev.nextMonth).1.month ≤ 11 :=
  (viewAnchor_month_invariant cfg0 ⟨5, 2023, ViewState.date, false⟩ Ev.nextMonth
    (by decide) (by decide) (by decide) (by decide) (fun m h => nomatch h)).1

/-- C7 amended: from any open popup in Year view, selectYear y sets the
anchor year (month unchanged) and moves to Month view, selectMonth m
then sets the anchor month (year unchanged) and moves to Date view, and
selectDate dd then emits exactly one onChange call and hides the popup,
leaving the view Date.  The emitted date equals (y, m, dd) provided the
triple is already canonical and y is outside [0,99]; otherwise the Date
constructor normalises it (see the counterexample). -/
theorem drilldown_cycle_spec (cfg : DatepickerConfig) (s : DPState) (y m dd : Int)
    (hview : s.view = ViewState.year) (hvis : s.visible = true)
    (hy : y < 0 ∨ 100 ≤ y) (hm1 : 0 ≤ m) (hm2 : m ≤ 11)
    (hd1 : 1 ≤ dd) (hd2 : dd ≤ daysInMonth m y) :
    ((step cfg s (Ev.selectYear y)).1 = { s with year := y, view := ViewState.month })
    ∧ ((step cfg { s with year := y, view := ViewState.month } (Ev.selectMonth m)).1 =
        { s with year := y, month := m, view := ViewState.date })
    ∧ ((runEvents cfg s [Ev.selectYear y, Ev.selectMonth m, Ev.selectDate dd]).2 =
        [⟨y, m, dd, 0⟩])
    ∧ ((runEvents cfg s [Ev.selectYear y, Ev.selectMonth m, Ev.selectDate dd]).1 =
        ⟨m, y, ViewState.date, false⟩) := by
  have hmk : mkJSDate y m dd = ⟨y, m, dd, 0⟩ := by
    have h0 : ¬ (0 ≤ y ∧ y ≤ 99) := by omega
    simp only [mkJSDate]
    rw [if_neg h0, normYMD_id y m dd hm1 hm2 hd1 hd2]
  refine ⟨rfl, rfl, ?_, rfl⟩
  simp [runEvents, step, hmk]

/-- C7 witness: the drill-down cycle run concretely from Year view with
year 2024, month 0, day 5 emits exactly one change with 2024-01-05. -/
theorem drilldown_cycle_spec_witness :
    (runEvents cfg0 ⟨0, 2024, ViewState.year, true⟩
      [Ev.selectYear 2024, Ev.selectMonth 0, Ev.selectDate 5]).2 = [⟨2024, 0, 5, 0⟩] :=
  (drilldown_cycle_spec cfg0 ⟨0, 2024, ViewState.year, true⟩ 2024 0 5 rfl rfl
    (Or.inr (by norm_num)) (by norm_num) (by norm_num) (by norm_num) (by decide)).2.2.1

/-- C7 counterexample: selectDate(40) in January 2024 does not invoke
onChange with the triple (2024, 0, 40); the Date constructor normalises
it to 2024-02-09. -/
theorem drilldown_normalises_counterexample :
    ((runEvents cfg0 ⟨0, 2024, ViewState.year, true⟩
        [Ev.selectYear 2024, Ev.selectMonth 0, Ev.selectDate 40]).2 = [⟨2024, 1, 9, 0⟩])
    ∧ ((⟨2024, 1, 9, 0⟩ : JSDate) ≠ ⟨2024, 0, 40, 0⟩) := by
  decide

theorem daysInMonth_feb_le (y : Int) : daysInMonth 1 y ≤ 29 := by
  unfold daysInMonth
  split
  · omega
  · split
    · split <;> norm_num
    · omega

theorem normYMD_high_once (y m d : Int) (hm1 : 0 ≤ m) (hm2 : m ≤ 10)
    (h1 : daysInMonth m y < d) (h2 : 1 ≤ d - daysInMonth m y)
    (h3 : d - daysInMonth m y ≤ daysInMonth (m + 1) y) :
    normYMD y m d = (y, m + 1, d - daysInMonth m y) := by
  have hge := daysInMonth_ge m y
  unfold normYMD
  rw [show m / 12 = 0 by omega, show m % 12 = m by omega, add_zero]
  rw [show d.natAbs + 2 = (d.natAbs + 1) + 1 by omega]
  rw [normDayGo_high (d.natAbs + 1) y m d (by omega) h1]
  rw [show (m + 1) / 12 = 0 by omega, show (m + 1) % 12 = m + 1 by omega, add_zero]
  exact normDayGo_base d.natAbs y (m + 1) (d - daysInMonth m y) h2 h3

theorem normYMD_prev_fill (y m : Int) (hm1 : 1 ≤ m) (hm2 : m ≤ 11) :
    normYMD y m 0 = (y, m - 1, daysInMonth (m - 1) y) := by
  have hge := daysInMonth_ge (m - 1) y
  unfold normYMD
  rw [show m / 12 = 0 by omega, show m % 12 = m by omega, add_zero]
  rw [show (0:Int).natAbs + 2 = 1 + 1 by norm_num]
  rw [normDayGo_low 1 y m 0 (by norm_num)]
  rw [show (m - 1) / 12 = 0 by omega, show (m - 1) % 12 = m - 1 by omega, add_zero, zero_add]
  rw [show (1:Nat) = 0 + 1 from rfl]
  exact normDayGo_base 0 y (m - 1) (daysInMonth (m - 1) y) (by omega) (le_refl _)

theorem normYMD_prev_fill_jan (y : Int) : normYMD y 0 0 = (y - 1, 11, 31) := by
  unfold normYMD
  rw [show (0:Int) / 12 = 0 by decide, show (0:Int) % 12 = 0 by decide, add_zero]
  rw [show (0:Int).natAbs + 2 = 1 + 1 by norm_num]
  rw [normDayGo_low 1 y 0 0 (by norm_num)]
  rw [show ((0:Int) - 1) / 12 = -1 by decide, show ((0:Int) - 1) % 12 = 11 by decide]
  have hd : daysInMonth 11 (y + -1) = 31 := by norm_num [daysInMonth]
  rw [hd, zero_add]
  rw [show (1:Nat) = 0 + 1 from rfl]
  rw [normDayGo_base 0 (y + -1) 11 31 (by norm_num) (by rw [hd])]
  have : y + -1 = y - 1 := by ring
  rw [this]

theorem normYMD_dec_jan (y d : Int) (h1 : 1 ≤ d) (h2 : d ≤ 31) :
    normYMD y (-1) d = (y - 1, 11, d) := by
  unfold normYMD
  rw [show (-1:Int) / 12 = -1 by decide, show (-1:Int) % 12 = 11 by decide]
  have hd : daysInMonth 11 (y + -1) = 31 := by norm_num [daysInMonth]
  rw [show d.natAbs + 2 = (d.natAbs + 1) + 1 by omega]
  rw [normDayGo_base (d.natAbs + 1) (y + -1) 11 d h1 (by rw [hd]; omega)]
  have : y + -1 = y - 1 := by ring
  rw [this]

theorem setDate_prev (y m dd ms : Int) (hm1 : 0 ≤ m) (hm2 : m ≤ 11)
    (hd1 : 1 ≤ dd) (hd2 : dd ≤ daysInMonth m y) :
    (JSDate.mk y m dd ms).setDate (dd - 1) = prevDayDate y m dd ms := by
  unfold JSDate.setDate prevDayDate prevDayTriple
  by_cases h2 : 2 ≤ dd
  · rw [if_pos h2]
    rw [normYMD_id y m (dd - 1) hm1 hm2 (by omega) (by omega)]
  · have hdd : dd = 1 := by omega
    subst hdd
    rw [if_neg h2]
    by_cases hm0 : m = 0
    · subst hm0
      rw [if_pos rfl]
      rw [show (1:Int) - 1 = 0 by norm_num, normYMD_prev_fill_jan y]
    · rw [if_neg hm0]
      rw [show (1:Int) - 1 = 0 by norm_num, normYMD_prev_fill y m (by omega) hm2]

theorem setMonthDate_noncarry (y mth D ms : Int) (h0 : 1 ≤ mth) (hm2 : mth ≤ 11)
    (hD1 : 2 ≤ D) (hD2 : D ≤ daysInMonth (mth - 1) y) :
    ((JSDate.mk y mth D ms).setMonth (mth - 1)).setDate (D - 1) = ⟨y, mth - 1, D - 1, ms⟩ := by
  unfold JSDate.setMonth
  dsimp only
  rw [normYMD_id y (mth - 1) D (by omega) (by omega) (by omega) hD2]
  dsimp only
  unfold JSDate.setDate
  dsimp only
  rw [normYMD_id y (mth - 1) (D - 1) (by omega) (by omega) (by omega) (by omega)]

theorem setMonthDate_carry (y mth ms : Int) (h0 : 1 ≤ mth) (hm2 : mth ≤ 11)
    (hprev : daysInMonth (mth - 1) y < 31) (hcur : daysInMonth mth y = 31) :
    ((JSDate.mk y mth 31 ms).setMonth (mth - 1)).setDate 30 = ⟨y, mth, 30, ms⟩ := by
  have hge := daysInMonth_ge (mth - 1) y
  unfold JSDate.setMonth
  dsimp only
  have h := normYMD_high_once y (mth - 1) 31 (by omega) (by omega) hprev (by omega)
    (by rw [show mth - 1 + 1 = mth by ring, hcur]; omega)
  rw [show mth - 1 + 1 = mth by ring] at h
  rw [h]
  dsimp only
  unfold JSDate.setDate
  dsimp only
  rw [normYMD_id y mth 30 (by omega) (by omega) (by norm_num) (by rw [hcur]; omega)]

theorem setMonth_setDate_monthRef (y m ms : Int) (hm1 : 0 ≤ m) (hm2 : m ≤ 11) :
    ((JSDate.mk y m (daysInMonth m y) ms).setMonth (m - 1)).setDate (daysInMonth m y - 1) =
      monthRefDate y m ms := by
  have hfeb := daysInMonth_feb_le y
  have hfebge := daysInMonth_ge 1 y
  interval_cases m
  · have hD : daysInMonth 0 y = 31 := by norm_num [daysInMonth]
    rw [hD, show (0:Int) - 1 = -1 by norm_num, show (31:Int) - 1 = 30 by norm_num]
    unfold JSDate.setMonth
    dsimp only
    rw [normYMD_dec_jan y 31 (by norm_num) (by norm_num)]
    dsimp only
    unfold JSDate.setDate
    dsimp only
    rw [normYMD_id (y - 1) 11 30 (by norm_num) (by norm_num) (by norm_num)
      (by norm_num [daysInMonth])]
    norm_num [monthRefDate, monthRefTriple]
  · rw [setMonthDate_noncarry y 1 (daysInMonth 1 y) ms (by norm_num) (by norm_num)
      (by omega) (by have h2 : daysInMonth (1 - 1 : Int) y = 31 := by norm_num [daysInMonth]
                     omega)]
    norm_num [monthRefDate, monthRefTriple]
  · have hD : daysInMonth 2 y = 31 := by norm_num [daysInMonth]
    rw [hD, show (31:Int) - 1 = 30 by norm_num]
    rw [setMonthDate_carry y 2 ms (by norm_num) (by norm_num)
      (by norm_num; omega) hD]
    norm_num [monthRefDate, monthRefTriple]
  · have hD : daysInMonth 3 y = 30 := by norm_num [daysInMonth]
    rw [hD]
    rw [setMonthDate_noncarry y 3 30 ms (by norm_num) (by norm_num) (by norm_num)
      (by norm_num [daysInMonth])]
    norm_num [monthRefDate, monthRefTriple, hD]
  · have hD : daysInMonth 4 y = 31 := by norm_num [daysInMonth]
    rw [hD, show (31:Int) - 1 = 30 by norm_num]
    rw [setMonthDate_carry y 4 ms (by norm_num) (by norm_num)
      (by norm_num [daysInMonth]) hD]
    norm_num [monthRefDate, monthRefTriple]
  · have hD : daysInMonth 5 y = 30 := by norm_num [daysInMonth]
    rw [hD]
    rw [setMonthDate_noncarry y 5 30 ms (by norm_num) (by norm_num) (by norm_num)
      (by norm_num [daysInMonth])]
    norm_num [monthRefDate, monthRefTriple, hD]
  · have hD : daysInMonth 6 y = 31 := by norm_num [daysInMonth]
    rw [hD, show (31:Int) - 1 = 30 by norm_num]
    rw [setMonthDate_carry y 6 ms (by norm_num) (by norm_num)
      (by norm_num [daysInMonth]) hD]
    norm_num [monthRefDate, monthRefTriple]
  · have hD : daysInMonth 7 y = 31 := by norm_num [daysInMonth]
    rw [hD]
    rw [setMonthDate_noncarry y 7 31 ms (by norm_num) (by norm_num) (by norm_num)
      (by norm_num [daysInMonth])]
    norm_num [monthRefDate, monthRefTriple, hD]
  · have hD : daysInMonth 8 y = 30 := by norm_num [daysInMonth]
    rw [hD]
    rw [setMonthDate_noncarry y 8 30 ms (by norm_num) (by norm_num) (by norm_num)
      (by norm_num [daysInMonth])]
    norm_num [monthRefDate, monthRefTriple, hD]
  · have hD : daysInMonth 9 y = 31 := by norm_num [daysInMonth]
    rw [hD, show (31:Int) - 1 = 30 by norm_num]
    rw [setMonthDate_carry y 9 ms (by norm_num) (by norm_num)
      (by norm_num [daysInMonth]) hD]
    norm_num [monthRefDate, monthRefTriple]
  · have hD : daysInMonth 10 y = 30 := by norm_num [daysInMonth]
    rw [hD]
    rw [setMonthDate_noncarry y 10 30 ms (by norm_num) (by norm_num) (by norm_num)
      (by norm_num [daysInMonth])]
    norm_num [monthRefDate, monthRefTriple, hD]
  · have hD : daysInMonth 11 y = 31 := by norm_num [daysInMonth]
    rw [hD, show (31:Int) - 1 = 30 by norm_num]
    rw [setMonthDate_carry y 11 ms (by norm_num) (by norm_num)
      (by norm_num [daysInMonth]) hD]
    norm_num [monthRefDate, monthRefTriple]

/-- C1 amended: in Date view, for a canonical candidate (month in
[0,11], day in [1, daysInMonth]) and a wall clock whose day of month is
at most 28, isValid is true exactly when the calendar day immediately
before the candidate day, carrying the wall-clock time of day, is not
after maxDate and not before minDate; the comparison is shifted one day
early rather than being the inclusive check of the candidate day that
the claim states. -/
theorem isValid_date_view_spec (minD maxD : Option JSDate) (now : JSDate) (y m dd : Int)
    (hn1 : 0 ≤ now.month) (hn2 : now.month ≤ 11) (hn3 : 1 ≤ now.day) (hn4 : now.day ≤ 28)
    (hm1 : 0 ≤ m) (hm2 : m ≤ 11) (hd1 : 1 ≤ dd) (hd2 : dd ≤ daysInMonth m y) :
    (isValid ViewState.date minD maxD now ⟨some dd, some m, y⟩).1 =
      ((maxD.all fun hi => !(prevDayDate y m dd now.ms).gtb hi) &&
       (minD.all fun lo => !(prevDayDate y m dd now.ms).ltb lo)) := by
  have hdd0 : dd ≠ 0 := by omega
  have hchain := setFullYear_setMonth_setDate now y m dd hn1 hn2 hn3 hn4 hm1 hm2 hd1 hd2
  have hprev := setDate_prev y m dd now.ms hm1 hm2 hd1 hd2
  simp only [isValid, if_true]
  simp only [if_neg hdd0]
  rw [hchain, hprev]
  cases maxD with
  | none =>
    cases minD with
    | none => rfl
    | some lo =>
      cases h : (prevDayDate y m dd now.ms).ltb lo <;> simp [h, Option.all]
  | some hi =>
    cases minD with
    | none =>
      cases h : (prevDayDate y m dd now.ms).gtb hi <;> simp [h, Option.all]
    | some lo =>
      cases h1 : (prevDayDate y m dd now.ms).gtb hi <;>
        cases h2 : (prevDayDate y m dd now.ms).ltb lo <;>
        simp [h1, h2, Option.all]

/-- C1 witness: the amended Date-view characterisation applied at the
concrete range 2023-01-10 to 2023-01-20 with candidate 2023-01-15. -/
theorem isValid_date_view_spec_witness :
    (isValid ViewState.date (some ⟨2023, 0, 10, 0⟩) (some ⟨2023, 0, 20, 0⟩) ⟨2020, 0, 15, 0⟩
      ⟨some 15, some 0, 2023⟩).1 =
      (((some (⟨2023, 0, 20, 0⟩ : JSDate)).all fun hi => !(prevDayDate 2023 0 15 0).gtb hi) &&
       ((some (⟨2023, 0, 10, 0⟩ : JSDate)).all fun lo => !(prevDayDate 2023 0 15 0).ltb lo)) :=
  isValid_date_view_spec (some ⟨2023, 0, 10, 0⟩) (some ⟨2023, 0, 20, 0⟩) ⟨2020, 0, 15, 0⟩
    2023 0 15 (by decide) (by decide) (by decide) (by decide)
    (by decide) (by decide) (by decide) (by decide)

/-- C1 counterexample: with range 2023-01-10 to 2023-01-20, the
candidate day 2023-01-10 lies inside the inclusive range the claim
describes, yet isValid rejects it (the code compares the previous day,
2023-01-09, against minDate). -/
theorem isValid_date_view_counterexample :
    (specDateInclusiveCheck (some ⟨2023, 0, 10, 0⟩) (some ⟨2023, 0, 20, 0⟩) 2023 0 10 = true)
    ∧ ((isValid ViewState.date (some ⟨2023, 0, 10, 0⟩) (some ⟨2023, 0, 20, 0⟩) ⟨2020, 0, 15, 0⟩
        ⟨some 10, some 0, 2023⟩).1 = false) := by
  decide

/-- C2 amended: in Month view, for a candidate month in [0,11] and a
wall clock whose day of month is at most 28, isValid is true exactly
when the reference day monthRefTriple (built by the setter chain from
the last day of the candidate month, shifted into the previous month
representation and decremented) is not after maxDate and not before
minDate; this is not the same as some day of the month lying in the
range. -/
theorem isValid_month_view_spec (minD maxD : Option JSDate) (now : JSDate) (y m : Int)
    (hn1 : 0 ≤ now.month) (hn2 : now.month ≤ 11) (hn3 : 1 ≤ now.day) (hn4 : now.day ≤ 28)
    (hm1 : 0 ≤ m) (hm2 : m ≤ 11) :
    (isValid ViewState.month minD maxD now ⟨none, some m, y⟩).1 =
      ((maxD.all fun hi => !(monthRefDate y m now.ms).gtb hi) &&
       (minD.all fun lo => !(monthRefDate y m now.ms).ltb lo)) := by
  have hge := daysInMonth_ge m y
  have hchain := setFullYear_setMonth_setDate now y m (daysInMonth m y) hn1 hn2 hn3 hn4
    hm1 hm2 (by omega) (le_refl _)
  have href := setMonth_setDate_monthRef y m now.ms hm1 hm2
  simp only [isValid]
  rw [if_neg (show ¬ (ViewState.month = ViewState.date) by decide)]
  rw [hchain, href]
  cases maxD with
  | none =>
    cases minD with
    | none => rfl
    | some lo =>
      cases h : (monthRefDate y m now.ms).ltb lo <;> simp [h, Option.all]
  | some hi =>
    cases minD with
    | none =>
      cases h : (monthRefDate y m now.ms).gtb hi <;> simp [h, Option.all]
    | some lo =>
      cases h1 : (monthRefDate y m now.ms).gtb hi <;>
        cases h2 : (monthRefDate y m now.ms).ltb lo <;>
        simp [h1, h2, Option.all]

/-- C2 witness: the amended Month-view characterisation applied at the
concrete range 2023-01-01 to 2023-03-31 with candidate April 2023. -/
theorem isValid_month_view_spec_witness :
    (isValid ViewState.month (some ⟨2023, 0, 1, 0⟩) (some ⟨2023, 2, 31, 0⟩) ⟨2020, 0, 15, 0⟩
      ⟨none, some 3, 2023⟩).1 =
      (((some (⟨2023, 2, 31, 0⟩ : JSDate)).all fun hi => !(monthRefDate 2023 3 0).gtb hi) &&
       ((some (⟨2023, 0, 1, 0⟩ : JSDate)).all fun lo => !(monthRefDate 2023 3 0).ltb lo)) :=
  isValid_month_view_spec (some ⟨2023, 0, 1, 0⟩) (some ⟨2023, 2, 31, 0⟩) ⟨2020, 0, 15, 0⟩
    2023 3 (by decide) (by decide) (by decide) (by decide) (by decide) (by decide)

/-- C2 counterexample: with range 2023-01-01 to 2023-03-31 no day of
April 2023 lies in the range, yet isValid accepts April (the code
compares the reference day 2023-03-29 against the range). -/
theorem isValid_month_view_counterexample :
    (specMonthHasDayInRange (some ⟨2023, 0, 1, 0⟩) (some ⟨2023, 2, 31, 0⟩) 2023 3 = false)
    ∧ ((isValid ViewState.month (some ⟨2023, 0, 1, 0⟩) (some ⟨2023, 2, 31, 0⟩) ⟨2020, 0, 15, 0⟩
        ⟨none, some 3, 2023⟩).1 = true) := by
  decide
